import Mathlib

/-!
Verification of the event-management backend: a shallow embedding of the
registration controller, the event service, the user login service, and the
spec-described registration capacity/waitlist engine, together with proofs
about the claims of the specification.
-/

namespace EventManagement

deriving instance DecidableEq for Except

/-- An API error as raised by the controllers and services: an HTTP status
code together with a stable error-code string. -/
structure APIError where
  status : Nat
  code : String
deriving Repr, DecidableEq

/-! ## Registration controller (controllers/registrationController.js) -/

/-- A row of the Payment table, as consulted by createRegistration. -/
structure PaymentRow where
  payId : Nat
  transactionRef : String
  paymentStatus : String
deriving Repr, DecidableEq

/-- A row of the Registration table as inserted by createRegistration:
userId, EventId, RegDate (timestamp encoded as a natural), RegStatus and
PayId columns. -/
structure RegRow where
  userId : Nat
  eventId : Nat
  regDate : Nat
  regStatus : String
  payId : Nat
deriving Repr, DecidableEq

/-- The database state visible to createRegistration: the Payment table and
the Registration table. -/
structure RegState where
  payments : List PaymentRow
  registrations : List RegRow
deriving Repr, DecidableEq

/-- The createRegistration controller. `paymentRef` stands for the value of
the freshly generated uuid, `now` for the current date, `userId` for
req.userId (absent or zero is falsy, hence 401) and `eventId` for the request
body field (absent or zero is falsy, hence 400). The payment lookup and the
status test mirror steps 4 and 5 of the source; the insert always uses
RegStatus CONFIRMED. -/
def createRegistration (paymentRef : String) (now : Nat)
    (userId : Option Nat) (eventId : Option Nat) (st : RegState) :
    Except APIError (RegRow × RegState) :=
  if userId.getD 0 = 0 then
    .error ⟨401, "UNAUTHORIZED"⟩
  else if eventId.getD 0 = 0 then
    .error ⟨400, "BAD_REQUEST"⟩
  else
    match st.payments.find? (fun p => p.transactionRef == paymentRef) with
    | none => .error ⟨400, "PAYMENT_NOT_FOUND"⟩
    | some pay =>
      if pay.paymentStatus ≠ "SUCCESS" ∧ pay.paymentStatus ≠ "PAID" then
        .error ⟨402, "PAYMENT_NOT_SUCCESS"⟩
      else if ∃ r ∈ st.registrations,
          r.userId = userId.getD 0 ∧ r.eventId = eventId.getD 0 then
        .error ⟨409, "ALREADY_REGISTERED"⟩
      else
        .ok (⟨userId.getD 0, eventId.getD 0, now, "CONFIRMED", pay.payId⟩,
             { st with registrations := st.registrations ++
                 [⟨userId.getD 0, eventId.getD 0, now, "CONFIRMED", pay.payId⟩] })

/-- A registration row counts as active for a (user, event) pair when it
references that user and event and its status is not CANCELLED. -/
def activeP (u e : Nat) (r : RegRow) : Prop :=
  r.userId = u ∧ r.eventId = e ∧ r.regStatus ≠ "CANCELLED"

instance (u e : Nat) (r : RegRow) : Decidable (activeP u e r) := by
  unfold activeP
  infer_instance

/-- Number of active registrations of a (user, event) pair in the table. -/
def activeCount (u e : Nat) (regs : List RegRow) : Nat :=
  regs.countP (fun r => decide (activeP u e r))

/-- The no-double-active-registration invariant of the specification. -/
def atMostOneActive (regs : List RegRow) : Prop :=
  ∀ u e, activeCount u e regs ≤ 1

/-- Count of Registration rows for an event whose RegStatus is CONFIRMED,
the quantity bounded by the capacity invariant of the specification. -/
def confirmedRegCount (e : Nat) (regs : List RegRow) : Nat :=
  (regs.filter (fun r => r.eventId == e && r.regStatus == "CONFIRMED")).length

/-! ## Event service (services/eventService.js) -/

/-- A row of the Venue table (only the columns the claims mention). -/
structure Venue where
  venueId : Nat
  capacity : Nat
deriving Repr, DecidableEq

/-- A row of the Event table. -/
structure EventRow where
  eventId : Nat
  eventName : String
  description : String
  startTime : Nat
  endTime : Nat
  maxSlots : Nat
  status : String
  registrationFee : Nat
  isPublished : Bool
  venueId : Nat
deriving Repr, DecidableEq

/-- A Registration row as seen by the event service queries (which filter on
the literal RegStatus string). -/
structure EvReg where
  regId : Nat
  userId : Nat
  eventId : Nat
  regStatus : String
deriving Repr, DecidableEq

/-- Database state visible to the event service. -/
structure EventState where
  venues : List Venue
  events : List EventRow
  registrations : List EvReg
  nextEventId : Nat
deriving Repr, DecidableEq

/-- Input body of createEvent; registrationFee defaults to 0 and status to
Draft exactly as in the destructuring of the source. -/
structure EventInput where
  eventName : String
  description : String
  startTime : Nat
  endTime : Nat
  maxSlots : Nat
  registrationFee : Option Nat := none
  venueID : Nat
  status : Option String := none
deriving Repr, DecidableEq

/-- The count the event service computes when it guards updates: rows of the
event whose RegStatus equals the lowercase string confirmed, as in its SQL
text. -/
def confirmedCountFor (e : Nat) (regs : List EvReg) : Nat :=
  (regs.filter (fun r => r.eventId == e && r.regStatus == "confirmed")).length

/-- The createEvent service: venue lookup, capacity validation, time-range
validation, then the insert with IsPublished false. -/
def createEvent (input : EventInput) (st : EventState) :
    Except APIError (EventRow × EventState) :=
  match st.venues.find? (fun v => v.venueId == input.venueID) with
  | none => .error ⟨404, "VENUE_NOT_FOUND"⟩
  | some venue =>
    if venue.capacity < input.maxSlots then
      .error ⟨400, "INVALID_MAX_SLOTS"⟩
    else if input.endTime ≤ input.startTime then
      .error ⟨400, "INVALID_TIME_RANGE"⟩
    else
      let row : EventRow :=
        { eventId := st.nextEventId
          eventName := input.eventName
          description := input.description
          startTime := input.startTime
          endTime := input.endTime
          maxSlots := input.maxSlots
          status := input.status.getD "Draft"
          registrationFee := input.registrationFee.getD 0
          isPublished := false
          venueId := input.venueID }
      .ok (row, { st with events := st.events ++ [row],
                          nextEventId := st.nextEventId + 1 })

/-- Update body of updateEvent; every field is optional. -/
structure EventUpdate where
  eventName : Option String := none
  description : Option String := none
  startTime : Option Nat := none
  endTime : Option Nat := none
  maxSlots : Option Nat := none
  registrationFee : Option Nat := none
  venueID : Option Nat := none
  status : Option String := none
deriving Repr, DecidableEq

/-- The venue gate of updateEvent. The source enters it only when the update
carries a truthy venueID different from the current one, and inside it the
capacity test fires only when a truthy maxSlots is also supplied; a zero
numeric value is falsy in the source language. -/
def checkVenueUpdate (u : EventUpdate) (ev : EventRow) (st : EventState) :
    Except APIError Unit :=
  if u.venueID.getD 0 ≠ 0 ∧ u.venueID.getD 0 ≠ ev.venueId then
    match st.venues.find? (fun v => v.venueId == u.venueID.getD 0) with
    | none => .error ⟨404, "VENUE_NOT_FOUND"⟩
    | some venue =>
      if u.maxSlots.getD 0 ≠ 0 ∧ venue.capacity < u.maxSlots.getD 0 then
        .error ⟨400, "INVALID_MAX_SLOTS"⟩
      else .ok ()
  else .ok ()

/-- Whether the update body carries at least one allowed field; all eight
fields of EventUpdate map into the allowed list of the source. -/
def hasUpdateField (u : EventUpdate) : Bool :=
  u.eventName.isSome || u.description.isSome || u.startTime.isSome ||
  u.endTime.isSome || u.maxSlots.isSome || u.registrationFee.isSome ||
  u.venueID.isSome || u.status.isSome

/-- Application of the dynamic SET clause to the event row. -/
def applyUpdate (ev : EventRow) (u : EventUpdate) : EventRow :=
  { ev with
    eventName := u.eventName.getD ev.eventName
    description := u.description.getD ev.description
    startTime := u.startTime.getD ev.startTime
    endTime := u.endTime.getD ev.endTime
    maxSlots := u.maxSlots.getD ev.maxSlots
    registrationFee := u.registrationFee.getD ev.registrationFee
    venueId := u.venueID.getD ev.venueId
    status := u.status.getD ev.status }

/-- The updateEvent service: existence check, the published-with-confirmed
gate, the conditional venue gate, time-range check, then the dynamic update.
The time check fires only when both bounds are supplied. -/
def updateEvent (eid : Nat) (u : EventUpdate) (st : EventState) :
    Except APIError (EventRow × EventState) :=
  match st.events.find? (fun e => e.eventId == eid) with
  | none => .error ⟨404, "EVENT_NOT_FOUND"⟩
  | some ev =>
    if ev.isPublished = true ∧ 0 < confirmedCountFor eid st.registrations then
      .error ⟨400, "EVENT_HAS_REGISTRATIONS"⟩
    else
      match checkVenueUpdate u ev st with
      | .error e => .error e
      | .ok _ =>
        if u.startTime.isSome = true ∧ u.endTime.isSome = true ∧
            u.endTime.getD 0 ≤ u.startTime.getD 0 then
          .error ⟨400, "INVALID_TIME_RANGE"⟩
        else if hasUpdateField u = false then
          .error ⟨400, "NO_UPDATE_FIELDS"⟩
        else
          let ev2 := applyUpdate ev u
          .ok (ev2, { st with
            events := st.events.map (fun e => if e.eventId == eid then ev2 else e) })

/-! ## User login (services/userRegistrationService.js) -/

/-- A row of the User table with the columns selected by getUserByEmail. -/
structure UserRow where
  userId : Nat
  studentId : String
  fullName : String
  username : String
  email : String
  passwordHash : String
  phone : String
  branchId : Nat
  graduationYear : Nat
  currentYear : Nat
  isActive : Bool
  createdAt : Nat
  updatedAt : Nat
deriving Repr, DecidableEq

/-- The column list produced by the SELECT of getUserByEmail, as an
association list from column name to a printed value, so that presence of a
field in a returned object is expressible. -/
def userSelectedFields (u : UserRow) : List (String × String) :=
  [("UserID", toString u.userId),
   ("StudentID", u.studentId),
   ("FullName", u.fullName),
   ("Username", u.username),
   ("Email", u.email),
   ("PasswordHash", u.passwordHash),
   ("Phone", u.phone),
   ("BranchID", toString u.branchId),
   ("GraduationYear", toString u.graduationYear),
   ("CurrentYear", toString u.currentYear),
   ("IsActive", toString u.isActive),
   ("CreatedAt", toString u.createdAt),
   ("UpdatedAt", toString u.updatedAt)]

/-- getUserByEmail: the first active user with the given email, as the
object of selected columns. -/
def getUserByEmail (email : String) (users : List UserRow) :
    Option (List (String × String)) :=
  (users.find? (fun u => u.email == email && u.isActive)).map userSelectedFields

/-- loginUser. The bcrypt comparison is the external oracle `verify`; the
rest destructuring of the source removes exactly the PasswordHash key from
the returned object. -/
def loginUser (verify : String → String → Bool) (email password : String)
    (users : List UserRow) : Except APIError (List (String × String)) :=
  match getUserByEmail email users with
  | none => .error ⟨401, "UNAUTHORIZED"⟩
  | some user =>
    if verify password
        (((user.find? (fun p => p.1 == "PasswordHash")).map Prod.snd).getD "")
        = false then
      .error ⟨401, "UNAUTHORIZED"⟩
    else
      .ok (user.filter (fun p => p.1 != "PasswordHash"))

/-! ## Registration capacity/waitlist engine

The service file holding registerUserForEvent, cancelRegistration and
updateRegistrationStatus is declared and documented in the repository but its
source is not present; the definitions below are modelled from the
specification. -/

/-- The closed set of registration statuses. -/
inductive RegStatus where
  | pending
  | confirmed
  | attended
  | cancelled
  | waitlisted
deriving Repr, DecidableEq

/-- A registration row as handled by the engine. -/
structure EngineReg where
  regId : Nat
  userId : Nat
  eventId : Nat
  regDate : Nat
  rstatus : RegStatus
deriving Repr, DecidableEq

/-- Modelled from the spec: the Status Transition Validator of section 4.2 of
the specification, whose implementation (eventRegistrationService.js) is not
among the provided sources. Legal edges are PENDING to CONFIRMED, CANCELLED
or WAITLISTED; CONFIRMED to ATTENDED or CANCELLED; WAITLISTED to CONFIRMED or
CANCELLED; ATTENDED and CANCELLED are terminal and self-transitions are
invalid. -/
def isValidTransition (f t : RegStatus) : Bool :=
  match f, t with
  | .pending, .confirmed => true
  | .pending, .cancelled => true
  | .pending, .waitlisted => true
  | .confirmed, .attended => true
  | .confirmed, .cancelled => true
  | .waitlisted, .confirmed => true
  | .waitlisted, .cancelled => true
  | _, _ => false

/-- The row with the strictly earlier date, the left one on a tie. -/
def pickEarlier (r b : EngineReg) : EngineReg :=
  if b.regDate < r.regDate then b else r

/-- Modelled from the spec: the SQL selection ORDER BY RegDate ASC LIMIT 1;
among rows of equal date the earlier row of the table wins. -/
def minByDate : List EngineReg → Option EngineReg
  | [] => none
  | r :: rs =>
    match minByDate rs with
    | none => some r
    | some b => some (pickEarlier r b)

/-- Modelled from the spec: locate the earliest-created WAITLISTED
registration of the event, the promotion candidate of section 4.1. -/
def earliestWaitlisted (e : Nat) (regs : List EngineReg) : Option EngineReg :=
  minByDate (regs.filter
    (fun r => r.eventId == e && r.rstatus == RegStatus.waitlisted))

/-- Set the status of the row with the given RegID. -/
def setStatus (rid : Nat) (s : RegStatus) (regs : List EngineReg) :
    List EngineReg :=
  regs.map (fun r => if r.regId == rid then { r with rstatus := s } else r)

/-- Modelled from the spec: the cancel operation of section 4.1, whose
implementation (cancelRegistration of eventRegistrationService.js) is not
among the provided sources. Absent registration is NotFound, an already
cancelled one is Conflict, a foreign actor without admin rights is Forbidden;
then the row is set to CANCELLED and, when its prior status was CONFIRMED,
the earliest waitlisted row of the same event is promoted to CONFIRMED in the
same transaction. -/
def cancelRegistration (rid actorId : Nat) (isAdmin : Bool)
    (regs : List EngineReg) : Except APIError (EngineReg × List EngineReg) :=
  match regs.find? (fun r => r.regId == rid) with
  | none => .error ⟨404, "REGISTRATION_NOT_FOUND"⟩
  | some reg =>
    if reg.rstatus = RegStatus.cancelled then
      .error ⟨409, "CONFLICT"⟩
    else if ¬ (actorId = reg.userId ∨ isAdmin = true) then
      .error ⟨403, "FORBIDDEN"⟩
    else
      if reg.rstatus = RegStatus.confirmed then
        match earliestWaitlisted reg.eventId (setStatus rid RegStatus.cancelled regs) with
        | some w =>
          .ok ({ reg with rstatus := RegStatus.cancelled },
               setStatus w.regId RegStatus.confirmed
                 (setStatus rid RegStatus.cancelled regs))
        | none =>
          .ok ({ reg with rstatus := RegStatus.cancelled },
               setStatus rid RegStatus.cancelled regs)
      else
        .ok ({ reg with rstatus := RegStatus.cancelled },
             setStatus rid RegStatus.cancelled regs)

/-- Confirmed-row count of an event as recomputed by the engine. -/
def confirmedCountEngine (e : Nat) (regs : List EngineReg) : Nat :=
  (regs.filter
    (fun r => r.eventId == e && r.rstatus == RegStatus.confirmed)).length

/-- Modelled from the spec: the admin updateStatus operation of section 4.1,
whose implementation is not among the provided sources. It delegates the
legality of the edge to the transition validator, failing with
INVALID_STATUS_TRANSITION otherwise; a transition into CONFIRMED from a
non-waitlist path re-checks capacity against the event maxSlots; the edge
CONFIRMED to CANCELLED triggers the same reallocation as cancel. -/
def updateRegistrationStatus (rid : Nat) (newStatus : RegStatus)
    (maxSlotsOf : Nat → Option Nat) (regs : List EngineReg) :
    Except APIError (EngineReg × List EngineReg) :=
  match regs.find? (fun r => r.regId == rid) with
  | none => .error ⟨404, "REGISTRATION_NOT_FOUND"⟩
  | some reg =>
    if isValidTransition reg.rstatus newStatus = false then
      .error ⟨409, "INVALID_STATUS_TRANSITION"⟩
    else if newStatus = RegStatus.confirmed ∧
        reg.rstatus ≠ RegStatus.waitlisted then
      match maxSlotsOf reg.eventId with
      | none => .error ⟨404, "EVENT_NOT_FOUND"⟩
      | some m =>
        if m ≤ confirmedCountEngine reg.eventId regs then
          .error ⟨409, "EVENT_FULL"⟩
        else
          .ok ({ reg with rstatus := newStatus },
               setStatus rid newStatus regs)
    else if reg.rstatus = RegStatus.confirmed ∧
        newStatus = RegStatus.cancelled then
      match earliestWaitlisted reg.eventId (setStatus rid RegStatus.cancelled regs) with
      | some w =>
        .ok ({ reg with rstatus := RegStatus.cancelled },
             setStatus w.regId RegStatus.confirmed
               (setStatus rid RegStatus.cancelled regs))
      | none =>
        .ok ({ reg with rstatus := RegStatus.cancelled },
             setStatus rid RegStatus.cancelled regs)
    else
      .ok ({ reg with rstatus := newStatus }, setStatus rid newStatus regs)

/-! ## Concrete database states used by the claim evaluations and witnesses -/

/-- A Payment table holding two successful payments. -/
def payTable : List PaymentRow := [⟨1, "ref1", "SUCCESS"⟩, ⟨2, "ref2", "SUCCESS"⟩]

/-- Initial state: successful payments, no registrations. -/
def regSt0 : RegState := ⟨payTable, []⟩

/-- The row createRegistration inserts for user 7 on event 1 at date 5. -/
def regRow1 : RegRow := ⟨7, 1, 5, "CONFIRMED", 1⟩

/-- State after the first registration. -/
def regSt1 : RegState := ⟨payTable, [regRow1]⟩

/-- The row createRegistration inserts for user 8 on event 1 at date 6. -/
def regRow2 : RegRow := ⟨8, 1, 6, "CONFIRMED", 2⟩

/-- State after the second registration. -/
def regSt2 : RegState := ⟨payTable, [regRow1, regRow2]⟩

/-- An event with a single slot, for the capacity evaluation. -/
def eventOneSlot : EventRow :=
  { eventId := 1, eventName := "E1", description := "D", startTime := 0,
    endTime := 10, maxSlots := 1, status := "Active", registrationFee := 0,
    isPublished := true, venueId := 1 }

/-- A published event with no free slots at all. -/
def eventNoSlots : EventRow := { eventOneSlot with maxSlots := 0 }

/-- An event-service state whose Event table is empty. -/
def noEventsSt : EventState := ⟨[⟨1, 10⟩], [], [], 1⟩

/-- A registration table holding one CANCELLED row for user 7, event 1. -/
def regStCancelled : RegState := ⟨payTable, [⟨7, 1, 3, "CANCELLED", 1⟩]⟩

/-- The venue of the update evaluations, capacity 10. -/
def venue7 : Venue := ⟨1, 10⟩

/-- An unpublished event at venue 1 with 5 slots. -/
def ev7 : EventRow :=
  { eventId := 1, eventName := "E", description := "D", startTime := 0,
    endTime := 10, maxSlots := 5, status := "Draft", registrationFee := 0,
    isPublished := false, venueId := 1 }

/-- Event-service state holding venue7 and ev7 only. -/
def evSt7 : EventState := ⟨[venue7], [ev7], [], 2⟩

/-- An update body that raises maxSlots to 1000 and touches nothing else. -/
def upd7 : EventUpdate := { maxSlots := some 1000 }

/-- ev7 after the maxSlots update. -/
def ev7upd : EventRow := { ev7 with maxSlots := 1000 }

/-- The state after the maxSlots update. -/
def evSt7upd : EventState := ⟨[venue7], [ev7upd], [], 2⟩

/-- The published copy of ev7. -/
def ev8 : EventRow := { ev7 with isPublished := true }

/-- Event-service state holding the published event and no registrations. -/
def evSt8 : EventState := ⟨[venue7], [ev8], [], 2⟩

/-- A structural edit: rename the event. -/
def upd8 : EventUpdate := { eventName := some "X" }

/-- ev8 after the rename. -/
def ev8upd : EventRow := { ev8 with eventName := "X" }

/-- The state after the rename. -/
def evSt8upd : EventState := ⟨[venue7], [ev8upd], [], 2⟩

/-- The published event together with one confirmed registration. -/
def evSt8b : EventState := ⟨[venue7], [ev8], [⟨1, 7, 1, "confirmed"⟩], 2⟩

/-- A user row for the login witness. -/
def userA : UserRow :=
  ⟨1, "S1", "Ada", "ada", "a@b.c", "HASH", "+1", 1, 2026, 3, true, 0, 0⟩

/-- A bcrypt oracle accepting every password, for the login witness. -/
def verifyAlways : String → String → Bool := fun _ _ => true

/-- A confirmed engine registration on event 100. -/
def engA : EngineReg := ⟨1, 10, 100, 0, RegStatus.confirmed⟩

/-- The earlier waitlisted engine registration on event 100. -/
def engB : EngineReg := ⟨2, 11, 100, 1, RegStatus.waitlisted⟩

/-- The later waitlisted engine registration on event 100. -/
def engC : EngineReg := ⟨3, 12, 100, 2, RegStatus.waitlisted⟩

/-- The engine registration table of the promotion witness. -/
def engRegs : List EngineReg := [engA, engB, engC]

/-- An attended engine registration, for the transition witness. -/
def engD : EngineReg := ⟨1, 10, 100, 0, RegStatus.attended⟩

/-- A maxSlots lookup returning five slots for every event. -/
def msFive : Nat → Option Nat := fun _ => some 5

/-! ## Helper lemmas -/

/-- Successful createRegistration calls passed the duplicate check and
appended exactly the returned row. -/
theorem createRegistration_ok_inv {ref : String} {now : Nat}
    {uid eid : Option Nat} {st : RegState} {row : RegRow} {st' : RegState}
    (h : createRegistration ref now uid eid st = .ok (row, st')) :
    row.userId = uid.getD 0 ∧ row.eventId = eid.getD 0 ∧
    st'.registrations = st.registrations ++ [row] ∧
    ¬ ∃ r ∈ st.registrations, r.userId = uid.getD 0 ∧ r.eventId = eid.getD 0 := by
  unfold createRegistration at h
  split at h
  · exact absurd h (by simp)
  split at h
  · exact absurd h (by simp)
  split at h
  · exact absurd h (by simp)
  split at h
  · exact absurd h (by simp)
  split at h
  · exact absurd h (by simp)
  next hdup =>
    simp only [Except.ok.injEq, Prod.mk.injEq] at h
    obtain ⟨hrow, hst⟩ := h
    subst hrow
    subst hst
    exact ⟨rfl, rfl, rfl, hdup⟩

/-- When the inputs are truthy, the payment succeeds and a row for the
(user, event) pair already exists, createRegistration answers 409
ALREADY_REGISTERED; the status of the existing row is never consulted. -/
theorem createRegistration_dup_error
    (ref : String) (now u e : Nat) (st : RegState) (pay : PaymentRow)
    (hu : u ≠ 0) (he : e ≠ 0)
    (hfind : st.payments.find? (fun p => p.transactionRef == ref) = some pay)
    (hstat : pay.paymentStatus = "SUCCESS" ∨ pay.paymentStatus = "PAID")
    (hdup : ∃ r ∈ st.registrations, r.userId = u ∧ r.eventId = e) :
    createRegistration ref now (some u) (some e) st =
      .error ⟨409, "ALREADY_REGISTERED"⟩ := by
  unfold createRegistration
  rw [if_neg (by simpa using hu), if_neg (by simpa using he)]
  simp only [hfind]
  rw [if_neg (by rcases hstat with h | h <;> simp [h])]
  rw [if_pos (by simpa using hdup)]

/-- pickEarlier answers one of its two arguments. -/
theorem pickEarlier_cases (r b : EngineReg) :
    pickEarlier r b = b ∨ pickEarlier r b = r := by
  unfold pickEarlier
  split
  · exact Or.inl rfl
  · exact Or.inr rfl

/-- pickEarlier is a lower bound of the two dates. -/
theorem pickEarlier_le (r b : EngineReg) :
    (pickEarlier r b).regDate ≤ r.regDate ∧
    (pickEarlier r b).regDate ≤ b.regDate := by
  unfold pickEarlier
  split <;> omega

/-- minByDate answers none only on the empty list. -/
theorem minByDate_eq_none {l : List EngineReg} (h : minByDate l = none) :
    l = [] := by
  cases l with
  | nil => rfl
  | cons r rs =>
    exfalso
    rw [minByDate] at h
    rcases hrec : minByDate rs with _ | b <;> rw [hrec] at h <;> cases h

/-- The minimum returned by minByDate belongs to the list. -/
theorem minByDate_mem : ∀ {l : List EngineReg} {m : EngineReg},
    minByDate l = some m → m ∈ l := by
  intro l
  induction l with
  | nil => intro m h; simp [minByDate] at h
  | cons r rs ih =>
    intro m h
    rw [minByDate] at h
    rcases hrec : minByDate rs with _ | b <;> rw [hrec] at h
    · rw [Option.some.injEq] at h
      rw [← h]
      exact List.mem_cons_self r rs
    · rw [Option.some.injEq] at h
      rcases pickEarlier_cases r b with hp | hp <;> rw [hp] at h
      · rw [← h]
        exact List.mem_cons_of_mem r (ih hrec)
      · rw [← h]
        exact List.mem_cons_self r rs

/-- The minimum returned by minByDate has the least date of the list. -/
theorem minByDate_le : ∀ {l : List EngineReg} {m : EngineReg},
    minByDate l = some m → ∀ y ∈ l, m.regDate ≤ y.regDate := by
  intro l
  induction l with
  | nil => intro m h; simp [minByDate] at h
  | cons r rs ih =>
    intro m h y hy
    rw [minByDate] at h
    rcases hrec : minByDate rs with _ | b <;> rw [hrec] at h
    · rw [Option.some.injEq] at h
      rcases List.mem_cons.mp hy with h1 | h1
      · rw [← h, h1]
      · rw [minByDate_eq_none hrec] at h1
        cases h1
    · rw [Option.some.injEq] at h
      have hpe := pickEarlier_le r b
      rcases List.mem_cons.mp hy with h1 | h1
      · rw [← h, h1]
        exact hpe.1
      · have h2 := ih hrec y h1
        rw [← h]
        omega

/-- On a list with a strict minimum element, minByDate answers it. -/
theorem minByDate_eq_of_strict_min {l : List EngineReg} {x : EngineReg}
    (hx : x ∈ l) (hmin : ∀ y ∈ l, y ≠ x → x.regDate < y.regDate) :
    minByDate l = some x := by
  rcases hm : minByDate l with _ | m
  · rw [minByDate_eq_none hm] at hx
    cases hx
  · have hmem := minByDate_mem hm
    have hle := minByDate_le hm x hx
    have hmx : m = x := by
      by_contra hne
      have := hmin m hmem hne
      omega
    rw [hmx]

/-! ## Claim theorems -/

/-- Claim C1: the spec states that the count of CONFIRMED registrations of an
event never exceeds maxSlots under any sequence of register and cancel calls.
The register path of the source never consults maxSlots: starting from an
empty table, two users register for event 1 whose maxSlots is 1, both calls
succeed with status CONFIRMED, and the confirmed count reaches 2. -/
theorem capacity_invariant_fails_in_code :
    createRegistration "ref1" 5 (some 7) (some 1) regSt0 = .ok (regRow1, regSt1) ∧
    createRegistration "ref2" 6 (some 8) (some 1) regSt1 = .ok (regRow2, regSt2) ∧
    eventOneSlot.eventId = 1 ∧ eventOneSlot.maxSlots = 1 ∧
    confirmedRegCount 1 regSt2.registrations = 2 ∧
    eventOneSlot.maxSlots < confirmedRegCount 1 regSt2.registrations := by
  decide

/-- Claim C2: the spec states that a successful register yields CONFIRMED
below capacity and WAITLISTED otherwise. The source inserts the literal
status CONFIRMED unconditionally: on an event with maxSlots 0, where the
claim demands WAITLISTED, the created row is CONFIRMED. -/
theorem register_always_confirmed_despite_full_event :
    eventNoSlots.eventId = 1 ∧ eventNoSlots.maxSlots = 0 ∧
    confirmedRegCount 1 regSt0.registrations = 0 ∧
    createRegistration "ref1" 5 (some 7) (some 1) regSt0 = .ok (regRow1, regSt1) ∧
    regRow1.regStatus = "CONFIRMED" ∧ regRow1.regStatus ≠ "WAITLISTED" := by
  decide

/-- Claim C6: the spec states that register fails with NotFound when the
event does not exist and with Conflict when it is not open. The source
performs no event lookup at all: with an empty Event table, registering for
the absent event 99 succeeds and creates a CONFIRMED row. -/
theorem register_missing_event_not_rejected :
    noEventsSt.events = [] ∧
    createRegistration "ref1" 5 (some 7) (some 99) regSt0 =
      .ok (⟨7, 99, 5, "CONFIRMED", 1⟩,
           ⟨payTable, [⟨7, 99, 5, "CONFIRMED", 1⟩]⟩) := by
  decide

/-- Claim C7: the spec states that maxSlots never exceeds the venue capacity,
checked on event create and update. The update path validates capacity only
when a different truthy venueID is supplied together with maxSlots: an update
that only raises maxSlots to 1000 on an event whose venue has capacity 10
succeeds and leaves the invariant violated. -/
theorem update_maxslots_bypasses_capacity_check :
    updateEvent 1 upd7 evSt7 = .ok (ev7upd, evSt7upd) ∧
    ev7upd.venueId = venue7.venueId ∧ venue7.capacity = 10 ∧
    venue7.capacity < ev7upd.maxSlots := by
  decide

/-- Claim C8, counterexample: the claim states that a published event rejects
every structural edit, yet the source rejects only when the event is both
published and has a confirmed registration: renaming the published event ev8,
which has no registrations, succeeds. -/
theorem published_event_edit_not_rejected_cex :
    ev8.isPublished = true ∧ evSt8.registrations = [] ∧
    updateEvent 1 upd8 evSt8 = .ok (ev8upd, evSt8upd) := by
  decide

/-- Claim C8, amended: updateEvent rejects the edit with
EVENT_HAS_REGISTRATIONS exactly on the gate the source implements, namely
when the event is published and at least one registration row of the event
carries the status string confirmed. -/
theorem structural_edit_rejected_when_published_and_confirmed
    (eid : Nat) (u : EventUpdate) (st : EventState) (ev : EventRow)
    (hfind : st.events.find? (fun e => e.eventId == eid) = some ev)
    (hpub : ev.isPublished = true)
    (hconf : 0 < confirmedCountFor eid st.registrations) :
    updateEvent eid u st = .error ⟨400, "EVENT_HAS_REGISTRATIONS"⟩ := by
  unfold updateEvent
  simp only [hfind]
  rw [if_pos ⟨hpub, hconf⟩]

/-- Witness for the amended claim C8: the published event with one confirmed
registration rejects the rename. -/
theorem structural_edit_rejected_witness :
    updateEvent 1 upd8 evSt8b = .error ⟨400, "EVENT_HAS_REGISTRATIONS"⟩ :=
  structural_edit_rejected_when_published_and_confirmed 1 upd8 evSt8b ev8
    (by decide) (by decide) (by decide)

/-- Claim C9: any existing row for the (user, event) pair, including a
CANCELLED one, makes a later register call fail with ALREADY_REGISTERED,
because the duplicate check of the source never filters on status; a user
who cancelled can therefore never re-register for the event. -/
theorem cancelled_row_blocks_reregistration
    (ref : String) (now u e : Nat) (st : RegState) (pay : PaymentRow)
    (hu : u ≠ 0) (he : e ≠ 0)
    (hfind : st.payments.find? (fun p => p.transactionRef == ref) = some pay)
    (hstat : pay.paymentStatus = "SUCCESS" ∨ pay.paymentStatus = "PAID")
    (hdup : ∃ r ∈ st.registrations, r.userId = u ∧ r.eventId = e ∧
      r.regStatus = "CANCELLED") :
    createRegistration ref now (some u) (some e) st =
      .error ⟨409, "ALREADY_REGISTERED"⟩ := by
  obtain ⟨r, hr, h1, h2, _⟩ := hdup
  exact createRegistration_dup_error ref now u e st pay hu he hfind hstat
    ⟨r, hr, h1, h2⟩

/-- Witness for claim C9: on a table holding only a CANCELLED row of user 7
for event 1, a fresh register call of user 7 fails ALREADY_REGISTERED. -/
theorem cancelled_row_blocks_reregistration_witness :
    createRegistration "ref2" 9 (some 7) (some 1) regStCancelled =
      .error ⟨409, "ALREADY_REGISTERED"⟩ :=
  cancelled_row_blocks_reregistration "ref2" 9 7 1 regStCancelled
    ⟨2, "ref2", "SUCCESS"⟩ (by decide) (by decide) (by decide) (Or.inl rfl)
    ⟨⟨7, 1, 3, "CANCELLED", 1⟩, by decide, rfl, rfl, rfl⟩

/-- Claim C10: every successful login answers the user object of the
selected columns with the PasswordHash field removed by the rest
destructuring, so the stored hash never appears in the result. -/
theorem login_result_omits_password_hash
    (verify : String → String → Bool) (email password : String)
    (users : List UserRow) (res : List (String × String))
    (h : loginUser verify email password users = .ok res) :
    "PasswordHash" ∉ res.map Prod.fst := by
  unfold loginUser at h
  split at h
  · exact absurd h (by simp)
  next user heq =>
    split at h
    · exact absurd h (by simp)
    · rw [Except.ok.injEq] at h
      subst h
      intro hmem
      rw [List.mem_map] at hmem
      obtain ⟨p, hp, hfst⟩ := hmem
      have h2 := (List.mem_filter.mp hp).2
      rw [hfst] at h2
      simp at h2

/-- Witness for claim C10: logging in the concrete user userA succeeds and
the result carries no PasswordHash field. -/
theorem login_result_omits_password_hash_witness :
    "PasswordHash" ∉ (((userSelectedFields userA).filter
      (fun p => p.1 != "PasswordHash")).map Prod.fst) :=
  login_result_omits_password_hash verifyAlways "a@b.c" "pw" [userA]
    ((userSelectedFields userA).filter (fun p => p.1 != "PasswordHash"))
    (by decide)

/-- Claim C5: while an active (non-CANCELLED) registration of the pair
exists, a further register call fails with 409 ALREADY_REGISTERED and creates
nothing, and a successful register call preserves the at-most-one-active
invariant of the table. -/
theorem no_double_active_registration :
    (∀ (ref : String) (now u e : Nat) (st : RegState) (pay : PaymentRow),
      u ≠ 0 → e ≠ 0 →
      st.payments.find? (fun p => p.transactionRef == ref) = some pay →
      (pay.paymentStatus = "SUCCESS" ∨ pay.paymentStatus = "PAID") →
      (∃ r ∈ st.registrations, activeP u e r) →
      createRegistration ref now (some u) (some e) st =
        .error ⟨409, "ALREADY_REGISTERED"⟩) ∧
    (∀ (ref : String) (now : Nat) (uid eid : Option Nat) (st : RegState)
      (row : RegRow) (st' : RegState),
      atMostOneActive st.registrations →
      createRegistration ref now uid eid st = .ok (row, st') →
      atMostOneActive st'.registrations) := by
  constructor
  · intro ref now u e st pay hu he hfind hstat hdup
    obtain ⟨r, hr, h1, h2, _⟩ := hdup
    exact createRegistration_dup_error ref now u e st pay hu he hfind hstat
      ⟨r, hr, h1, h2⟩
  · intro ref now uid eid st row st' hinv hok
    obtain ⟨hru, hre, hregs, hdup⟩ := createRegistration_ok_inv hok
    intro u' e'
    unfold activeCount
    rw [hregs, List.countP_append]
    by_cases hcase : u' = uid.getD 0 ∧ e' = eid.getD 0
    · have hzero :
          st.registrations.countP (fun r => decide (activeP u' e' r)) = 0 := by
        rw [List.countP_eq_zero]
        intro r hrmem hP
        rw [decide_eq_true_eq] at hP
        exact hdup ⟨r, hrmem, hP.1.trans hcase.1, hP.2.1.trans hcase.2⟩
      rw [hzero]
      have hone : List.countP (fun r => decide (activeP u' e' r)) [row] ≤ 1 := by
        rw [List.countP_cons, List.countP_nil]
        split <;> omega
      omega
    · have hrow : decide (activeP u' e' row) = false := by
        rw [decide_eq_false_iff_not]
        intro hP
        exact hcase ⟨hP.1.symm.trans hru, hP.2.1.symm.trans hre⟩
      have hone : List.countP (fun r => decide (activeP u' e' r)) [row] = 0 := by
        rw [List.countP_eq_zero]
        intro a ha
        rw [List.mem_singleton] at ha
        subst ha
        simp [hrow]
      rw [hone]
      have hprev := hinv u' e'
      unfold activeCount at hprev
      omega

/-- Witness for claim C5: the second register call of user 7 on event 1
fails while regRow1 is active, and the state regSt1 produced by a successful
call satisfies the invariant. -/
theorem no_double_active_registration_witness :
    createRegistration "ref2" 6 (some 7) (some 1) regSt1 =
      .error ⟨409, "ALREADY_REGISTERED"⟩ ∧
    atMostOneActive regSt1.registrations := by
  constructor
  · exact no_double_active_registration.1 "ref2" 6 7 1 regSt1
      ⟨2, "ref2", "SUCCESS"⟩ (by decide) (by decide) (by decide) (Or.inl rfl)
      ⟨regRow1, by decide, by decide⟩
  · exact no_double_active_registration.2 "ref1" 5 (some 7) (some 1) regSt0
      regRow1 regSt1 (fun u e => by simp [activeCount, regSt0]) (by decide)

/-- Claim C3 (spec-modelled): cancelling a CONFIRMED registration promotes
the strictly earliest WAITLISTED registration of the same event to CONFIRMED
in the same operation, and cancelling a WAITLISTED or PENDING registration
changes nothing beyond the cancelled row. -/
theorem cancel_promotes_earliest_waitlisted :
    (∀ (rid actorId : Nat) (isAdmin : Bool) (regs : List EngineReg)
      (reg w : EngineReg),
      regs.find? (fun r => r.regId == rid) = some reg →
      (∀ r ∈ regs, r.regId = rid → r = reg) →
      reg.rstatus = RegStatus.confirmed →
      (actorId = reg.userId ∨ isAdmin = true) →
      w ∈ regs → w.eventId = reg.eventId →
      w.rstatus = RegStatus.waitlisted →
      (∀ r ∈ regs, r.eventId = reg.eventId →
        r.rstatus = RegStatus.waitlisted → r ≠ w → w.regDate < r.regDate) →
      cancelRegistration rid actorId isAdmin regs =
        .ok ({ reg with rstatus := RegStatus.cancelled },
             setStatus w.regId RegStatus.confirmed
               (setStatus rid RegStatus.cancelled regs)) ∧
      { w with rstatus := RegStatus.confirmed } ∈
        setStatus w.regId RegStatus.confirmed
          (setStatus rid RegStatus.cancelled regs)) ∧
    (∀ (rid actorId : Nat) (isAdmin : Bool) (regs : List EngineReg)
      (reg : EngineReg),
      regs.find? (fun r => r.regId == rid) = some reg →
      (reg.rstatus = RegStatus.waitlisted ∨ reg.rstatus = RegStatus.pending) →
      (actorId = reg.userId ∨ isAdmin = true) →
      cancelRegistration rid actorId isAdmin regs =
        .ok ({ reg with rstatus := RegStatus.cancelled },
             setStatus rid RegStatus.cancelled regs)) := by
  constructor
  · intro rid actorId isAdmin regs reg w hfind huniq hconf hauth hw hwev hwst hwmin
    have hwne : w ≠ reg := by
      intro heq
      rw [heq, hconf] at hwst
      cases hwst
    have hwrid : w.regId ≠ rid := fun hid => hwne (huniq w hw hid)
    have hwin1 : w ∈ setStatus rid RegStatus.cancelled regs := by
      unfold setStatus
      rw [List.mem_map]
      refine ⟨w, hw, ?_⟩
      simp [hwrid]
    have hwL : w ∈ (setStatus rid RegStatus.cancelled regs).filter
        (fun r => r.eventId == reg.eventId &&
          r.rstatus == RegStatus.waitlisted) :=
      List.mem_filter.mpr ⟨hwin1, by simp [hwev, hwst]⟩
    have hmin : ∀ y ∈ (setStatus rid RegStatus.cancelled regs).filter
        (fun r => r.eventId == reg.eventId &&
          r.rstatus == RegStatus.waitlisted),
        y ≠ w → w.regDate < y.regDate := by
      intro y hy hne
      obtain ⟨hy1, hy2⟩ := List.mem_filter.mp hy
      unfold setStatus at hy1
      rw [List.mem_map] at hy1
      obtain ⟨x, hx, hfx⟩ := hy1
      by_cases hxid : (x.regId == rid) = true
      · rw [if_pos hxid] at hfx
        rw [← hfx] at hy2
        simp at hy2
      · rw [if_neg hxid] at hfx
        subst hfx
        simp only [Bool.and_eq_true, beq_iff_eq] at hy2
        exact hwmin x hx hy2.1 hy2.2 hne
    have hEW : earliestWaitlisted reg.eventId
        (setStatus rid RegStatus.cancelled regs) = some w := by
      unfold earliestWaitlisted
      exact minByDate_eq_of_strict_min hwL hmin
    constructor
    · unfold cancelRegistration
      simp only [hfind]
      rw [if_neg (by simp [hconf])]
      rw [if_neg (not_not_intro hauth)]
      rw [if_pos hconf]
      simp only [hEW]
    · show _ ∈ List.map
        (fun r => if r.regId == w.regId
          then { r with rstatus := RegStatus.confirmed } else r)
        (setStatus rid RegStatus.cancelled regs)
      rw [List.mem_map]
      exact ⟨w, hwin1, by simp⟩
  · intro rid actorId isAdmin regs reg hfind hprior hauth
    unfold cancelRegistration
    simp only [hfind]
    rw [if_neg (by rcases hprior with h | h <;> simp [h])]
    rw [if_neg (not_not_intro hauth)]
    rw [if_neg (by rcases hprior with h | h <;> simp [h])]

/-- Witness for claim C3: in the table engRegs, cancelling the confirmed
registration 1 promotes engB (the earlier waitlisted row) to CONFIRMED, and
cancelling the waitlisted registration 2 only cancels that row. -/
theorem cancel_promotes_earliest_waitlisted_witness :
    ({ engB with rstatus := RegStatus.confirmed } ∈
      setStatus engB.regId RegStatus.confirmed
        (setStatus 1 RegStatus.cancelled engRegs)) ∧
    cancelRegistration 2 11 false engRegs =
      .ok ({ engB with rstatus := RegStatus.cancelled },
           setStatus 2 RegStatus.cancelled engRegs) := by
  constructor
  · exact (cancel_promotes_earliest_waitlisted.1 1 10 false engRegs engA engB
      (by decide) (by decide) (by decide) (Or.inl (by decide)) (by decide)
      (by decide) (by decide) (by decide)).2
  · exact cancel_promotes_earliest_waitlisted.2 2 11 false engRegs engB
      (by decide) (Or.inl (by decide)) (Or.inl (by decide))

/-- Claim C4 (spec-modelled): the transition validator accepts exactly the
edges of the specification table, and updateRegistrationStatus answers
INVALID_STATUS_TRANSITION on every other pair, including self-transitions
and every transition out of ATTENDED or CANCELLED. -/
theorem updateStatus_transition_table :
    (∀ f t : RegStatus, isValidTransition f t = true ↔
      ((f = RegStatus.pending ∧ (t = RegStatus.confirmed ∨
          t = RegStatus.cancelled ∨ t = RegStatus.waitlisted)) ∨
       (f = RegStatus.confirmed ∧ (t = RegStatus.attended ∨
          t = RegStatus.cancelled)) ∨
       (f = RegStatus.waitlisted ∧ (t = RegStatus.confirmed ∨
          t = RegStatus.cancelled)))) ∧
    (∀ (rid : Nat) (t : RegStatus) (ms : Nat → Option Nat)
      (regs : List EngineReg) (reg : EngineReg),
      regs.find? (fun r => r.regId == rid) = some reg →
      isValidTransition reg.rstatus t = false →
      updateRegistrationStatus rid t ms regs =
        .error ⟨409, "INVALID_STATUS_TRANSITION"⟩) := by
  constructor
  · intro f t
    cases f <;> cases t <;> decide
  · intro rid t ms regs reg hfind hbad
    unfold updateRegistrationStatus
    simp only [hfind]
    rw [if_pos hbad]

/-- Witness for claim C4: the edge PENDING to WAITLISTED is accepted while
the attempt to move the ATTENDED registration engD to CONFIRMED fails with
INVALID_STATUS_TRANSITION. -/
theorem updateStatus_transition_table_witness :
    isValidTransition RegStatus.pending RegStatus.waitlisted = true ∧
    updateRegistrationStatus 1 RegStatus.confirmed msFive [engD] =
      .error ⟨409, "INVALID_STATUS_TRANSITION"⟩ := by
  constructor
  · exact (updateStatus_transition_table.1 RegStatus.pending
      RegStatus.waitlisted).mpr (Or.inl ⟨rfl, Or.inr (Or.inr rfl)⟩)
  · exact updateStatus_transition_table.2 1 RegStatus.confirmed msFive [engD]
      engD (by decide) (by decide)

end EventManagement
